import Mathlib

/-!
# Capability-dispatch switch of the binary serialization library

Shallow embedding of `serializer.go` (package `binary`).

* `serializerSwitch` is a Go `byte`; it is embedded as `Fin 256`, and the four
  declared constants are the values 0, 1, 2, 3 given by `iota`.
* `reflect.Type` is embedded as an arbitrary carrier `Ty`, a value passed as
  `interface{}` as an arbitrary carrier `V`, and `reflect.TypeOf` as a function
  `TypeOf : V → Ty`.
* `querySerializer` and `indirectType` are called by `serializer.go` but declared
  elsewhere in the package; every function that calls them takes them as
  arguments, so that what is proved with them as variables holds for every
  implementation of them.
* What the two helpers answer on a given type is modelled from the
  specification: `query_full_serializer` over `TypeDescriptor.methodSet`, and
  `TypeDescriptor.indirectType`.
-/

namespace Binary

/-! ## Definitions embedded from `serializer.go` -/

/-- The constant `defaultSerializer` (line 10). -/
def defaultSerializer : Bool := true

/-- The function `DefaultSerializer` (lines 14-16). -/
def DefaultSerializer : Bool := defaultSerializer

/-- The type `serializerSwitch` (line 60), a Go `byte`. -/
abbrev serializerSwitch : Type := Fin 256

/-- The constant `serializerDisable` (line 63), `iota = 0`. -/
def serializerDisable : serializerSwitch := 0

/-- The constant `serializerCheck` (line 64), `iota = 1`. -/
def serializerCheck : serializerSwitch := 1

/-- The constant `serializerCheckFalse` (line 65), `iota = 2`. -/
def serializerCheckFalse : serializerSwitch := 2

/-- The constant `serializerCheckOk` (line 66), `iota = 3`. -/
def serializerCheckOk : serializerSwitch := 3

/-- The method `enable` (lines 83-85): `ss >= serializerCheck`. -/
def enable (ss : serializerSwitch) : Bool := decide (ss ≥ serializerCheck)

/-- The method `needCheck` (lines 88-90): `ss == serializerCheck`. -/
def needCheck (ss : serializerSwitch) : Bool := decide (ss = serializerCheck)

/-- The method `checkFalse` (lines 93-95): `ss == serializerCheckFalse`. -/
def checkFalse (ss : serializerSwitch) : Bool := decide (ss = serializerCheckFalse)

/-- The method `checkOk` (lines 98-100): `ss == serializerCheckOk`. -/
def checkOk (ss : serializerSwitch) : Bool := decide (ss = serializerCheckOk)

/-- The method `String` (lines 70-80). The `switch` has three cases; falling
through it reaches `panic(fmt.Errorf("SerializerUnknown"))`, embedded as
`Except.error` carrying the message of the panic value. -/
def serializerSwitch.String (ss : serializerSwitch) : Except String String :=
  if ss = serializerDisable then Except.ok "SerializerDisable"
  else if ss = serializerCheck then Except.ok "SerializerCheck"
  else if ss = serializerCheckOk then Except.ok "SerializerCheckOk"
  else Except.error "SerializerUnknown"

/-- The method `subSwitch` (lines 110-118). -/
def subSwitch (ss : serializerSwitch) (isSerializer : Bool) : serializerSwitch :=
  if !enable ss then serializerDisable
  else if isSerializer then serializerCheckOk
  else serializerCheckFalse

/-- The method `subSwitchCheck` (lines 103-108). The two helpers it calls are
arguments: `querySerializer` and `indirectType`. -/
def subSwitchCheck {Ty : Type} (querySerializer : Ty → Bool) (indirectType : Ty → Ty)
    (ss : serializerSwitch) (t : Ty) : serializerSwitch :=
  if !enable ss then serializerDisable
  else subSwitch ss (querySerializer (indirectType t))

/-- The function `toplvSerializer` (lines 120-125). -/
def toplvSerializer (enable : Bool) : serializerSwitch :=
  if enable then serializerCheck else serializerDisable

/-- The function `CheckSerializer` (lines 128-130):
`querySerializer(reflect.TypeOf(x))`. -/
def CheckSerializer {V Ty : Type} (TypeOf : V → Ty) (querySerializer : Ty → Bool)
    (x : V) : Bool :=
  querySerializer (TypeOf x)

/-- The function `CheckSerializerDeep` (lines 133-135):
`querySerializer(indirectType(reflect.TypeOf(x)))`. -/
def CheckSerializerDeep {V Ty : Type} (TypeOf : V → Ty) (querySerializer : Ty → Bool)
    (indirectType : Ty → Ty) (x : V) : Bool :=
  querySerializer (indirectType (TypeOf x))

/-! ## The capability oracle, from the specification -/

/-- Modelled from the spec: the method set of a type, which the package reads
through `reflect` and which is not part of `serializer.go`. Section 3,
CapabilitySet: the logical flags Sizer, Encoder, Decoder, one per method
`Size() int`, `Encode([]byte) ([]byte, error)`, `Decode([]byte) error`. -/
structure CapabilitySet where
  sizer : Bool
  encoder : Bool
  decoder : Bool
deriving DecidableEq, Repr

/-- Modelled from the spec: the helper `querySerializer`, which is declared
outside `serializer.go`. Section 4.1, `query_full_serializer(T)`: true iff the
method set of `T` matches the Size, Encode and Decode contract, all three. -/
def query_full_serializer {Ty : Type} (methodSet : Ty → CapabilitySet) (t : Ty) : Bool :=
  (methodSet t).sizer && (methodSet t).encoder && (methodSet t).decoder

/-! ## A concrete type universe

Named types and pointers to them. `Custom` declares `Size`, `Encode` and `Decode`
on the pointer receiver only, so that exactly `*Custom` has them in its method
set; `Value` declares them on the value receiver, so that `Value` and `*Value`
have them; `Point` declares no method. A pointer to a pointer has no method. -/

/-- The type descriptors of the concrete universe. -/
inductive GoType where
  | Point : GoType
  | Custom : GoType
  | ptr : GoType → GoType
  | Value : GoType
deriving DecidableEq, Repr

/-- The method sets of the concrete universe: all three methods for `*Custom`,
for `Value` and for `*Value`, none for any other type. -/
def GoType.methodSet : GoType → CapabilitySet
  | GoType.ptr GoType.Custom => ⟨true, true, true⟩
  | GoType.Value => ⟨true, true, true⟩
  | GoType.ptr GoType.Value => ⟨true, true, true⟩
  | _ => ⟨false, false, false⟩

/-- Modelled from the spec: the helper `indirectType`, which is declared
outside `serializer.go`, on the concrete universe. Sections 2, 4.1 and 6: the
pointer form of a type, reached through at most one layer of pointer
indirection: `*T` for a type `T` that is no pointer, and a pointer type is
its own pointer form. -/
def GoType.indirectType : GoType → GoType
  | GoType.ptr t => GoType.ptr t
  | t => GoType.ptr t

/-- A value of the concrete universe is identified with its runtime type. -/
def GoType.TypeOf (x : GoType) : GoType := x

/-! ## The type system, from the specification

The claims that speak of every type, and of the receiver on which a type
declares its methods, are stated over the type descriptors below. -/

/-- Modelled from the spec: the methods a named type declares, which the
package reads through `reflect` and which are not part of `serializer.go`.
Section 4.1, receiver indirection: methods are defined on `T` (value receiver)
or on `*T` (pointer receiver); Scenarios B and C. -/
structure TypeDecl where
  valueReceiver : CapabilitySet
  pointerReceiver : CapabilitySet
deriving DecidableEq, Repr

/-- Modelled from the spec: a `reflect.Type`, which is not part of
`serializer.go`. Section 3, TypeDescriptor: the canonical non-pointer form of
the type and whether it is a pointer, here the number of pointer levels above
the non-pointer form: 0 for `T`, 1 for `*T`, 2 for `**T`. -/
structure TypeDescriptor where
  base : TypeDecl
  pointers : Nat
deriving DecidableEq, Repr

/-- Modelled from the spec: the method set of a type descriptor. Section 4.1
and Scenarios B and C: `T` has the methods declared on the value receiver, its
pointer form `*T` has those and the methods declared on the pointer receiver,
and a pointer to a pointer has none. -/
def TypeDescriptor.methodSet (t : TypeDescriptor) : CapabilitySet :=
  match t.pointers with
  | 0 => t.base.valueReceiver
  | 1 => ⟨t.base.valueReceiver.sizer || t.base.pointerReceiver.sizer,
          t.base.valueReceiver.encoder || t.base.pointerReceiver.encoder,
          t.base.valueReceiver.decoder || t.base.pointerReceiver.decoder⟩
  | _ => ⟨false, false, false⟩

/-- The pointer type `*T` to a type `T`: one more pointer level. -/
def TypeDescriptor.ptrTo (t : TypeDescriptor) : TypeDescriptor :=
  ⟨t.base, t.pointers + 1⟩

/-- Modelled from the spec: the helper `indirectType`, which is declared
outside `serializer.go`. Sections 2, 4.1 and 6 and Scenario C: the pointer form
of a type, reached through at most one layer of pointer indirection: `*T` for
a type `T` that is no pointer, and a pointer type is its own pointer form. -/
def TypeDescriptor.indirectType (t : TypeDescriptor) : TypeDescriptor :=
  if t.pointers = 0 then ⟨t.base, 1⟩ else t

/-! ## Basic facts about the switch -/

theorem enable_eq_false_iff (ss : serializerSwitch) :
    enable ss = false ↔ ss = serializerDisable := by
  unfold enable serializerCheck serializerDisable
  rw [decide_eq_false_iff_not]
  constructor
  · intro h
    apply Fin.ext
    have h1 : ¬ (1 ≤ ss.val) := fun h2 => h (Fin.le_def.mpr h2)
    simp only [Fin.val_zero]
    omega
  · intro h hle
    subst h
    exact absurd (Fin.le_def.mp hle) (by decide)

theorem enable_eq_true_iff (ss : serializerSwitch) :
    enable ss = true ↔ ss ≠ serializerDisable := by
  rw [Ne, ← enable_eq_false_iff]
  cases enable ss <;> simp

theorem subSwitch_of_enable (ss : serializerSwitch) (isSerializer : Bool)
    (h : enable ss = true) :
    subSwitch ss isSerializer =
      if isSerializer = true then serializerCheckOk else serializerCheckFalse := by
  simp [subSwitch, h]

theorem subSwitch_of_not_enable (ss : serializerSwitch) (isSerializer : Bool)
    (h : enable ss = false) :
    subSwitch ss isSerializer = serializerDisable := by
  simp [subSwitch, h]

theorem subSwitchCheck_of_enable {Ty : Type} (querySerializer : Ty → Bool)
    (indirectType : Ty → Ty) (ss : serializerSwitch) (t : Ty) (h : enable ss = true) :
    subSwitchCheck querySerializer indirectType ss t =
      if querySerializer (indirectType t) = true then serializerCheckOk
      else serializerCheckFalse := by
  simp [subSwitchCheck, subSwitch, h]

theorem subSwitchCheck_of_not_enable {Ty : Type} (querySerializer : Ty → Bool)
    (indirectType : Ty → Ty) (ss : serializerSwitch) (t : Ty) (h : enable ss = false) :
    subSwitchCheck querySerializer indirectType ss t = serializerDisable := by
  simp [subSwitchCheck, h]

theorem foldl_subSwitchCheck_disable {Ty : Type} (querySerializer : Ty → Bool)
    (indirectType : Ty → Ty) (ts : List Ty) :
    List.foldl (subSwitchCheck querySerializer indirectType) serializerDisable ts
      = serializerDisable := by
  induction ts with
  | nil => rfl
  | cons t rest ih =>
    rw [List.foldl_cons]
    have hstep : subSwitchCheck querySerializer indirectType serializerDisable t
        = serializerDisable := rfl
    rw [hstep]
    exact ih

theorem foldl_subSwitch_disable (bs : List Bool) :
    List.foldl subSwitch serializerDisable bs = serializerDisable := by
  induction bs with
  | nil => rfl
  | cons b rest ih =>
    rw [List.foldl_cons]
    have hstep : subSwitch serializerDisable b = serializerDisable := rfl
    rw [hstep]
    exact ih

theorem enable_subSwitch (ss : serializerSwitch) (isSerializer : Bool) :
    enable (subSwitch ss isSerializer) = enable ss := by
  cases h : enable ss
  · rw [subSwitch_of_not_enable ss isSerializer h]
    rfl
  · rw [subSwitch_of_enable ss isSerializer h]
    cases isSerializer <;> rfl

theorem enable_subSwitchCheck {Ty : Type} (querySerializer : Ty → Bool)
    (indirectType : Ty → Ty) (ss : serializerSwitch) (t : Ty) :
    enable (subSwitchCheck querySerializer indirectType ss t) = enable ss := by
  cases h : enable ss
  · rw [subSwitchCheck_of_not_enable querySerializer indirectType ss t h]
    rfl
  · rw [subSwitchCheck_of_enable querySerializer indirectType ss t h]
    cases querySerializer (indirectType t) <;> rfl

theorem query_indirectType_eq_or_ptrTo (t : TypeDescriptor) :
    query_full_serializer TypeDescriptor.methodSet (TypeDescriptor.indirectType t)
      = (query_full_serializer TypeDescriptor.methodSet t
          || query_full_serializer TypeDescriptor.methodSet (TypeDescriptor.ptrTo t)) := by
  obtain ⟨⟨⟨v1, v2, v3⟩, ⟨p1, p2, p3⟩⟩, n⟩ := t
  rcases n with _ | _ | n
  · cases v1 <;> cases v2 <;> cases v3 <;> cases p1 <;> cases p2 <;> cases p3 <;> rfl
  · cases v1 <;> cases v2 <;> cases v3 <;> cases p1 <;> cases p2 <;> cases p3 <;> rfl
  · rfl

theorem query_indirectType_of_query (t : TypeDescriptor)
    (h : query_full_serializer TypeDescriptor.methodSet t = true) :
    query_full_serializer TypeDescriptor.methodSet (TypeDescriptor.indirectType t) = true := by
  rw [query_indirectType_eq_or_ptrTo, h]
  rfl

/-! ## Claims -/

/-- C1: `toplvSerializer` returns `serializerCheck` on `true` and
`serializerDisable` on `false`; for every boolean `enabled` the result is
`serializerCheck` if and only if `enabled` is true, and `serializerDisable`
if and only if it is false. -/
theorem toplvSerializer_spec :
    toplvSerializer true = serializerCheck ∧
    toplvSerializer false = serializerDisable ∧
    ∀ enabled : Bool,
      (toplvSerializer enabled = serializerCheck ↔ enabled = true) ∧
      (toplvSerializer enabled = serializerDisable ↔ enabled = false) := by
  refine ⟨rfl, rfl, ?_⟩
  intro enabled
  cases enabled <;> decide

/-- C2: for every type `t` and whatever `querySerializer` and `indirectType`
answer, `subSwitchCheck` on `serializerDisable` is `serializerDisable`. -/
theorem subSwitchCheck_disable {Ty : Type} (querySerializer : Ty → Bool)
    (indirectType : Ty → Ty) (t : Ty) :
    subSwitchCheck querySerializer indirectType serializerDisable t = serializerDisable := by
  rfl

/-- C3: for every enabled switch `s` (any byte on which `enable` is true, so
`serializerCheck`, `serializerCheckOk` and `serializerCheckFalse` among them)
and every type `t` whose method set has all of Size, Encode and Decode,
`subSwitchCheck s t` is `serializerCheckOk`. -/
theorem subSwitchCheck_capable (s : serializerSwitch) (t : TypeDescriptor)
    (hs : enable s = true)
    (hsize : (TypeDescriptor.methodSet t).sizer = true)
    (henc : (TypeDescriptor.methodSet t).encoder = true)
    (hdec : (TypeDescriptor.methodSet t).decoder = true) :
    subSwitchCheck (query_full_serializer TypeDescriptor.methodSet)
      TypeDescriptor.indirectType s t = serializerCheckOk := by
  have hq : query_full_serializer TypeDescriptor.methodSet t = true := by
    simp [query_full_serializer, hsize, henc, hdec]
  rw [subSwitchCheck_of_enable _ _ s t hs, query_indirectType_of_query t hq]
  rfl

/-- C3, at a concrete input: parent `serializerCheck` and the pointer type to
a type that declares the three methods on the pointer receiver only. -/
theorem subSwitchCheck_capable_witness :
    enable serializerCheck = true ∧
    subSwitchCheck (query_full_serializer TypeDescriptor.methodSet)
      TypeDescriptor.indirectType serializerCheck
      ⟨⟨⟨false, false, false⟩, ⟨true, true, true⟩⟩, 1⟩ = serializerCheckOk :=
  ⟨by decide,
   subSwitchCheck_capable serializerCheck ⟨⟨⟨false, false, false⟩, ⟨true, true, true⟩⟩, 1⟩
     (by decide) rfl rfl rfl⟩

/-- C4 (as stated, refuted): in the concrete universe `Custom` has none of the
three methods in its method set and `serializerCheck` is enabled, yet
`subSwitchCheck` answers `serializerCheckOk`, not `serializerCheckFalse`,
because the indirected form `*Custom` has all three. -/
theorem subSwitchCheck_incapable_counterexample :
    enable serializerCheck = true ∧
    (GoType.methodSet GoType.Custom).sizer = false ∧
    (GoType.methodSet GoType.Custom).encoder = false ∧
    (GoType.methodSet GoType.Custom).decoder = false ∧
    subSwitchCheck (query_full_serializer GoType.methodSet) GoType.ptr
      serializerCheck GoType.Custom = serializerCheckOk ∧
    subSwitchCheck (query_full_serializer GoType.methodSet) GoType.ptr
      serializerCheck GoType.Custom ≠ serializerCheckFalse := by
  decide

/-- C4 (amended): for every enabled switch `s` and every type `t` whose
indirected form `indirectType t` lacks at least one of Size, Encode and Decode,
`subSwitchCheck s t` is `serializerCheckFalse`. -/
theorem subSwitchCheck_checkFalse {Ty : Type} (methodSet : Ty → CapabilitySet)
    (indirectType : Ty → Ty) (s : serializerSwitch) (t : Ty)
    (hs : enable s = true)
    (hlack : (methodSet (indirectType t)).sizer = false ∨
             (methodSet (indirectType t)).encoder = false ∨
             (methodSet (indirectType t)).decoder = false) :
    subSwitchCheck (query_full_serializer methodSet) indirectType s t
      = serializerCheckFalse := by
  have hq : query_full_serializer methodSet (indirectType t) = false := by
    unfold query_full_serializer
    rcases hlack with h | h | h <;> simp [h]
  simp [subSwitchCheck, subSwitch, hs, hq]

/-- C4 (amended), at a concrete input: parent `serializerCheckOk`, child type
`Point`, whose indirected form `*Point` has no method. -/
theorem subSwitchCheck_checkFalse_witness :
    enable serializerCheckOk = true ∧
    ((GoType.methodSet (GoType.ptr GoType.Point)).sizer = false ∨
     (GoType.methodSet (GoType.ptr GoType.Point)).encoder = false ∨
     (GoType.methodSet (GoType.ptr GoType.Point)).decoder = false) ∧
    subSwitchCheck (query_full_serializer GoType.methodSet) GoType.ptr
      serializerCheckOk GoType.Point = serializerCheckFalse :=
  ⟨by decide, by decide,
   subSwitchCheck_checkFalse GoType.methodSet GoType.ptr serializerCheckOk GoType.Point
     (by decide) (by decide)⟩

/-- C5: for every switch `parent` (any byte) and every boolean `isCapable`,
`subSwitch parent isCapable` is `serializerDisable` if `parent` is
`serializerDisable`, otherwise `serializerCheckOk` if `isCapable` is true,
otherwise `serializerCheckFalse`. -/
theorem subSwitch_spec (parent : serializerSwitch) (isCapable : Bool) :
    subSwitch parent isCapable =
      if parent = serializerDisable then serializerDisable
      else if isCapable = true then serializerCheckOk
      else serializerCheckFalse := by
  by_cases hp : parent = serializerDisable
  · subst hp
    rfl
  · have he : enable parent = true := (enable_eq_true_iff parent).mpr hp
    simp [subSwitch, he, hp]

/-- C6 (as stated, refuted): in the concrete universe, with parent
`serializerCheck` and child type `Custom`, `subSwitchCheck` is
`serializerCheckOk` while `subSwitch` fed with the query on `Custom` itself is
`serializerCheckFalse`. -/
theorem subSwitchCheck_query_counterexample :
    serializerCheck ≠ serializerDisable ∧
    subSwitchCheck (query_full_serializer GoType.methodSet) GoType.ptr
      serializerCheck GoType.Custom = serializerCheckOk ∧
    subSwitch serializerCheck (query_full_serializer GoType.methodSet GoType.Custom)
      = serializerCheckFalse ∧
    subSwitchCheck (query_full_serializer GoType.methodSet) GoType.ptr
      serializerCheck GoType.Custom ≠
    subSwitch serializerCheck (query_full_serializer GoType.methodSet GoType.Custom) := by
  decide

/-- C6 (amended): for every switch `parent` and every type `childType`,
`subSwitchCheck parent childType` is `serializerDisable` when `parent` is
`serializerDisable`, and otherwise equals `subSwitch` of `parent` and the query
on the indirected form `indirectType childType`. -/
theorem subSwitchCheck_eq_subSwitch {Ty : Type} (querySerializer : Ty → Bool)
    (indirectType : Ty → Ty) (parent : serializerSwitch) (childType : Ty) :
    subSwitchCheck querySerializer indirectType parent childType =
      if parent = serializerDisable then serializerDisable
      else subSwitch parent (querySerializer (indirectType childType)) := by
  by_cases hp : parent = serializerDisable
  · subst hp
    rfl
  · have he : enable parent = true := (enable_eq_true_iff parent).mpr hp
    simp [subSwitchCheck, he, hp]

/-- C7: on the four declared states `enable` is false for `serializerDisable`
and true for `serializerCheck`, `serializerCheckFalse` and `serializerCheckOk`;
over every byte, `enable` is true exactly off `serializerDisable`, `needCheck`
is true only for `serializerCheck`, `checkOk` only for `serializerCheckOk`, and
`checkFalse` only for `serializerCheckFalse`. -/
theorem switch_queries_spec :
    (enable serializerDisable = false ∧ enable serializerCheck = true ∧
     enable serializerCheckFalse = true ∧ enable serializerCheckOk = true) ∧
    (∀ ss : serializerSwitch, enable ss = true ↔ ss ≠ serializerDisable) ∧
    (∀ ss : serializerSwitch, needCheck ss = true ↔ ss = serializerCheck) ∧
    (∀ ss : serializerSwitch, checkOk ss = true ↔ ss = serializerCheckOk) ∧
    (∀ ss : serializerSwitch, checkFalse ss = true ↔ ss = serializerCheckFalse) := by
  refine ⟨by decide, enable_eq_true_iff, ?_, ?_, ?_⟩
  · intro ss
    simp [needCheck]
  · intro ss
    simp [checkOk]
  · intro ss
    simp [checkFalse]

/-- C8 (the code at the failing input): `DefaultSerializer` returns `true`, so
the switch built from the default policy is `serializerCheck`, which is
enabled, and not `serializerDisable`. -/
theorem DefaultSerializer_is_true :
    DefaultSerializer = true ∧
    toplvSerializer DefaultSerializer = serializerCheck ∧
    toplvSerializer DefaultSerializer ≠ serializerDisable ∧
    enable (toplvSerializer DefaultSerializer) = true := by
  decide

/-- C9: for every value `x`, `CheckSerializerDeep x` is `CheckSerializer x` OR
the query on the one-level pointer-indirected form of the runtime type of `x`,
be that form read as the pointer type `ptrTo` of the runtime type or as its
`indirectType`; consequently `CheckSerializer x = true` implies
`CheckSerializerDeep x = true`. -/
theorem CheckSerializerDeep_or {V : Type} (TypeOf : V → TypeDescriptor) (x : V) :
    CheckSerializerDeep TypeOf (query_full_serializer TypeDescriptor.methodSet)
        TypeDescriptor.indirectType x
      = (CheckSerializer TypeOf (query_full_serializer TypeDescriptor.methodSet) x
          || query_full_serializer TypeDescriptor.methodSet
               (TypeDescriptor.ptrTo (TypeOf x))) ∧
    CheckSerializerDeep TypeOf (query_full_serializer TypeDescriptor.methodSet)
        TypeDescriptor.indirectType x
      = (CheckSerializer TypeOf (query_full_serializer TypeDescriptor.methodSet) x
          || query_full_serializer TypeDescriptor.methodSet
               (TypeDescriptor.indirectType (TypeOf x))) ∧
    (CheckSerializer TypeOf (query_full_serializer TypeDescriptor.methodSet) x = true →
      CheckSerializerDeep TypeOf (query_full_serializer TypeDescriptor.methodSet)
        TypeDescriptor.indirectType x = true) := by
  unfold CheckSerializerDeep CheckSerializer
  refine ⟨query_indirectType_eq_or_ptrTo (TypeOf x), ?_, query_indirectType_of_query (TypeOf x)⟩
  rw [query_indirectType_eq_or_ptrTo (TypeOf x)]
  cases query_full_serializer TypeDescriptor.methodSet (TypeOf x) <;>
    cases query_full_serializer TypeDescriptor.methodSet (TypeDescriptor.ptrTo (TypeOf x)) <;>
    rfl

/-- C9, at a concrete input: a value whose runtime type is the pointer type to
a type that declares the three methods on the pointer receiver only; values
are identified with their runtime types. -/
theorem CheckSerializerDeep_or_witness :
    CheckSerializer id (query_full_serializer TypeDescriptor.methodSet)
      (⟨⟨⟨false, false, false⟩, ⟨true, true, true⟩⟩, 1⟩ : TypeDescriptor) = true ∧
    CheckSerializerDeep id (query_full_serializer TypeDescriptor.methodSet)
      TypeDescriptor.indirectType
      (⟨⟨⟨false, false, false⟩, ⟨true, true, true⟩⟩, 1⟩ : TypeDescriptor) = true :=
  ⟨by decide,
   (CheckSerializerDeep_or id
      (⟨⟨⟨false, false, false⟩, ⟨true, true, true⟩⟩, 1⟩ : TypeDescriptor)).2.2 (by decide)⟩

/-- C10: for every value `x`, `CheckSerializer x` is true if and only if the
method set of the exact runtime type of `x` has all three of Size, Encode and
Decode; it is false when any of the three is missing, in particular for the
empty method set; and whatever the oracle, the query is made on
`TypeOf x` itself, with no indirection. -/
theorem CheckSerializer_spec {V Ty : Type} (TypeOf : V → Ty)
    (methodSet : Ty → CapabilitySet) (x : V) :
    (CheckSerializer TypeOf (query_full_serializer methodSet) x = true ↔
      ((methodSet (TypeOf x)).sizer = true ∧ (methodSet (TypeOf x)).encoder = true ∧
       (methodSet (TypeOf x)).decoder = true)) ∧
    (CheckSerializer TypeOf (query_full_serializer methodSet) x = false ↔
      ((methodSet (TypeOf x)).sizer = false ∨ (methodSet (TypeOf x)).encoder = false ∨
       (methodSet (TypeOf x)).decoder = false)) ∧
    (∀ querySerializer : Ty → Bool,
      CheckSerializer TypeOf querySerializer x = querySerializer (TypeOf x)) := by
  unfold CheckSerializer query_full_serializer
  refine ⟨?_, ?_, fun _ => rfl⟩
  · simp [Bool.and_eq_true, and_assoc]
  · cases (methodSet (TypeOf x)).sizer <;> cases (methodSet (TypeOf x)).encoder <;>
      cases (methodSet (TypeOf x)).decoder <;> simp

/-- C11: let `Custom` declare none of Size, Encode and Decode on the value
receiver and all three on the pointer receiver. For a value `x` of type `Custom`
and a value `px` of type `*Custom`, `CheckSerializer x` is false,
`CheckSerializerDeep x` is true and `CheckSerializerDeep px` is true. -/
theorem CheckSerializer_pointer_receiver {V : Type} (TypeOf : V → TypeDescriptor)
    (Custom : TypeDecl) (x px : V)
    (hvalue : Custom.valueReceiver = ⟨false, false, false⟩)
    (hpointer : Custom.pointerReceiver = ⟨true, true, true⟩)
    (hx : TypeOf x = ⟨Custom, 0⟩) (hpx : TypeOf px = ⟨Custom, 1⟩) :
    CheckSerializer TypeOf (query_full_serializer TypeDescriptor.methodSet) x = false ∧
    CheckSerializerDeep TypeOf (query_full_serializer TypeDescriptor.methodSet)
      TypeDescriptor.indirectType x = true ∧
    CheckSerializerDeep TypeOf (query_full_serializer TypeDescriptor.methodSet)
      TypeDescriptor.indirectType px = true := by
  obtain ⟨v, q⟩ := Custom
  simp only at hvalue hpointer
  subst hvalue
  subst hpointer
  unfold CheckSerializer CheckSerializerDeep
  rw [hx, hpx]
  exact ⟨rfl, rfl, rfl⟩

/-- C11, at a concrete input: the values `Custom{}` and `&Custom{}`, identified
with their runtime types. -/
theorem CheckSerializer_pointer_receiver_witness :
    CheckSerializer id (query_full_serializer TypeDescriptor.methodSet)
      (⟨⟨⟨false, false, false⟩, ⟨true, true, true⟩⟩, 0⟩ : TypeDescriptor) = false ∧
    CheckSerializerDeep id (query_full_serializer TypeDescriptor.methodSet)
      TypeDescriptor.indirectType
      (⟨⟨⟨false, false, false⟩, ⟨true, true, true⟩⟩, 0⟩ : TypeDescriptor) = true ∧
    CheckSerializerDeep id (query_full_serializer TypeDescriptor.methodSet)
      TypeDescriptor.indirectType
      (⟨⟨⟨false, false, false⟩, ⟨true, true, true⟩⟩, 1⟩ : TypeDescriptor) = true :=
  CheckSerializer_pointer_receiver id ⟨⟨false, false, false⟩, ⟨true, true, true⟩⟩
    ⟨⟨⟨false, false, false⟩, ⟨true, true, true⟩⟩, 0⟩
    ⟨⟨⟨false, false, false⟩, ⟨true, true, true⟩⟩, 1⟩ rfl rfl rfl rfl

/-- C12: `String` returns "SerializerDisable", "SerializerCheck" and
"SerializerCheckOk" for `serializerDisable`, `serializerCheck` and
`serializerCheckOk`, and panics for `serializerCheckFalse`; for every byte `ss`
it panics if and only if `ss` is none of those three states, and returns a
string if and only if it is one of them. -/
theorem String_spec :
    serializerSwitch.String serializerDisable = Except.ok "SerializerDisable" ∧
    serializerSwitch.String serializerCheck = Except.ok "SerializerCheck" ∧
    serializerSwitch.String serializerCheckOk = Except.ok "SerializerCheckOk" ∧
    serializerSwitch.String serializerCheckFalse = Except.error "SerializerUnknown" ∧
    (∀ ss : serializerSwitch,
      (∃ e, serializerSwitch.String ss = Except.error e) ↔
        (ss ≠ serializerDisable ∧ ss ≠ serializerCheck ∧ ss ≠ serializerCheckOk)) ∧
    (∀ ss : serializerSwitch,
      (∃ name, serializerSwitch.String ss = Except.ok name) ↔
        (ss = serializerDisable ∨ ss = serializerCheck ∨ ss = serializerCheckOk)) := by
  refine ⟨rfl, rfl, rfl, rfl, ?_, ?_⟩
  · intro ss
    unfold serializerSwitch.String
    by_cases h0 : ss = serializerDisable
    · rw [if_pos h0]
      simp [h0]
    · rw [if_neg h0]
      by_cases h1 : ss = serializerCheck
      · rw [if_pos h1]
        simp [h1]
      · rw [if_neg h1]
        by_cases h3 : ss = serializerCheckOk
        · rw [if_pos h3]
          simp [h3]
        · rw [if_neg h3]
          simp [h0, h1, h3]
  · intro ss
    unfold serializerSwitch.String
    by_cases h0 : ss = serializerDisable
    · rw [if_pos h0]
      simp [h0]
    · rw [if_neg h0]
      by_cases h1 : ss = serializerCheck
      · rw [if_pos h1]
        simp [h1]
      · rw [if_neg h1]
        by_cases h3 : ss = serializerCheckOk
        · rw [if_pos h3]
          simp [h3]
        · rw [if_neg h3]
          simp [h0, h1, h3]

/-- C13: `serializerDisable` is terminal under descent. For every list of nested
types and every list of booleans, and for every depth `n`, iterating
`subSwitchCheck` (respectively `subSwitch`) from `serializerDisable` over the
first `n` entries yields `serializerDisable`, on which `enable` is false. -/
theorem disable_terminal {Ty : Type} (querySerializer : Ty → Bool)
    (indirectType : Ty → Ty) (ts : List Ty) (bs : List Bool) (n : Nat) :
    List.foldl (subSwitchCheck querySerializer indirectType) serializerDisable (ts.take n)
      = serializerDisable ∧
    enable (List.foldl (subSwitchCheck querySerializer indirectType) serializerDisable
      (ts.take n)) = false ∧
    List.foldl subSwitch serializerDisable (bs.take n) = serializerDisable ∧
    enable (List.foldl subSwitch serializerDisable (bs.take n)) = false := by
  rw [foldl_subSwitchCheck_disable, foldl_subSwitch_disable]
  exact ⟨rfl, rfl, rfl, rfl⟩

/-- C14: the switch of a child does not depend on which enabled verdict the
parent carries. For all enabled `p1`, `p2`, every type `t` and every boolean
`b`, `subSwitchCheck p1 t = subSwitchCheck p2 t` and
`subSwitch p1 b = subSwitch p2 b`; and some capable type, `Value` of the
concrete universe, gets `serializerCheckOk` below a `serializerCheckFalse`
parent. -/
theorem subSwitch_parent_independent {Ty : Type} (querySerializer : Ty → Bool)
    (indirectType : Ty → Ty) (p1 p2 : serializerSwitch) (t : Ty) (b : Bool)
    (h1 : enable p1 = true) (h2 : enable p2 = true) :
    subSwitchCheck querySerializer indirectType p1 t
      = subSwitchCheck querySerializer indirectType p2 t ∧
    subSwitch p1 b = subSwitch p2 b ∧
    (∃ c : GoType, query_full_serializer GoType.methodSet c = true ∧
      subSwitchCheck (query_full_serializer GoType.methodSet) GoType.indirectType
        serializerCheckFalse c = serializerCheckOk) := by
  refine ⟨?_, ?_, ⟨GoType.Value, by decide, by decide⟩⟩
  · rw [subSwitchCheck_of_enable _ _ p1 t h1, subSwitchCheck_of_enable _ _ p2 t h2]
  · rw [subSwitch_of_enable p1 b h1, subSwitch_of_enable p2 b h2]

/-- C14, at a concrete input: parents `serializerCheckFalse` and
`serializerCheckOk`, child type `Value`, boolean `true`. -/
theorem subSwitch_parent_independent_witness :
    enable serializerCheckFalse = true ∧ enable serializerCheckOk = true ∧
    subSwitchCheck (query_full_serializer GoType.methodSet) GoType.indirectType
        serializerCheckFalse GoType.Value
      = subSwitchCheck (query_full_serializer GoType.methodSet) GoType.indirectType
        serializerCheckOk GoType.Value ∧
    subSwitch serializerCheckFalse true = subSwitch serializerCheckOk true :=
  ⟨by decide, by decide,
   (subSwitch_parent_independent (query_full_serializer GoType.methodSet)
      GoType.indirectType serializerCheckFalse serializerCheckOk GoType.Value true
      (by decide) (by decide)).1,
   (subSwitch_parent_independent (query_full_serializer GoType.methodSet)
      GoType.indirectType serializerCheckFalse serializerCheckOk GoType.Value true
      (by decide) (by decide)).2.1⟩

/-- C15: the verdict of the traversal agrees with the public deep check. For
every enabled switch `s` and every value `x` whose runtime type is `T`,
`checkOk` of `subSwitchCheck s T` is `CheckSerializerDeep x`, and `checkFalse`
of it is the negation of `CheckSerializerDeep x`. -/
theorem subSwitchCheck_agrees_deep {V Ty : Type} (TypeOf : V → Ty)
    (querySerializer : Ty → Bool) (indirectType : Ty → Ty)
    (s : serializerSwitch) (x : V) (T : Ty)
    (hs : enable s = true) (hT : TypeOf x = T) :
    checkOk (subSwitchCheck querySerializer indirectType s T)
      = CheckSerializerDeep TypeOf querySerializer indirectType x ∧
    checkFalse (subSwitchCheck querySerializer indirectType s T)
      = !CheckSerializerDeep TypeOf querySerializer indirectType x := by
  subst hT
  rw [subSwitchCheck_of_enable querySerializer indirectType s (TypeOf x) hs]
  unfold CheckSerializerDeep
  cases querySerializer (indirectType (TypeOf x)) <;> exact ⟨rfl, rfl⟩

/-- C15, at a concrete input: the switch `serializerCheck` and the value
`Custom{}` of the concrete universe. -/
theorem subSwitchCheck_agrees_deep_witness :
    enable serializerCheck = true ∧ GoType.TypeOf GoType.Custom = GoType.Custom ∧
    checkOk (subSwitchCheck (query_full_serializer GoType.methodSet) GoType.indirectType
        serializerCheck GoType.Custom)
      = CheckSerializerDeep GoType.TypeOf (query_full_serializer GoType.methodSet)
          GoType.indirectType GoType.Custom ∧
    checkFalse (subSwitchCheck (query_full_serializer GoType.methodSet) GoType.indirectType
        serializerCheck GoType.Custom)
      = !CheckSerializerDeep GoType.TypeOf (query_full_serializer GoType.methodSet)
          GoType.indirectType GoType.Custom :=
  ⟨by decide, rfl,
   subSwitchCheck_agrees_deep GoType.TypeOf (query_full_serializer GoType.methodSet)
     GoType.indirectType serializerCheck GoType.Custom GoType.Custom (by decide) rfl⟩

/-- C16: a derived switch is never unresolved. For every byte `s`, every
boolean `b` and every type `t`, `subSwitch s b` and `subSwitchCheck s t` differ
from `serializerCheck` and `needCheck` is false on them; `toplvSerializer`
produces `serializerCheck` exactly on `true`. -/
theorem derived_switch_resolved {Ty : Type} (querySerializer : Ty → Bool)
    (indirectType : Ty → Ty) (s : serializerSwitch) (b : Bool) (t : Ty) :
    subSwitch s b ≠ serializerCheck ∧
    subSwitchCheck querySerializer indirectType s t ≠ serializerCheck ∧
    needCheck (subSwitch s b) = false ∧
    needCheck (subSwitchCheck querySerializer indirectType s t) = false ∧
    (∀ e : Bool, toplvSerializer e = serializerCheck ↔ e = true) := by
  have hb : subSwitch s b ≠ serializerCheck := by
    cases h : enable s
    · rw [subSwitch_of_not_enable s b h]
      decide
    · rw [subSwitch_of_enable s b h]
      cases b <;> decide
  have ht : subSwitchCheck querySerializer indirectType s t ≠ serializerCheck := by
    cases h : enable s
    · rw [subSwitchCheck_of_not_enable querySerializer indirectType s t h]
      decide
    · rw [subSwitchCheck_of_enable querySerializer indirectType s t h]
      cases querySerializer (indirectType t) <;> decide
  refine ⟨hb, ht, ?_, ?_, ?_⟩
  · simpa [needCheck] using hb
  · simpa [needCheck] using ht
  · intro e
    cases e <;> decide

/-- C17: deriving a child switch preserves enabledness in both directions. For
every byte `s`, every boolean `b` and every type `t`, `enable (subSwitch s b)`
and `enable (subSwitchCheck s t)` equal `enable s`; the same holds after a
descent through any list of types or of booleans. -/
theorem derive_preserves_enable {Ty : Type} (querySerializer : Ty → Bool)
    (indirectType : Ty → Ty) (s : serializerSwitch) (b : Bool) (t : Ty)
    (ts : List Ty) (bs : List Bool) :
    enable (subSwitch s b) = enable s ∧
    enable (subSwitchCheck querySerializer indirectType s t) = enable s ∧
    enable (List.foldl (subSwitchCheck querySerializer indirectType) s ts) = enable s ∧
    enable (List.foldl subSwitch s bs) = enable s := by
  refine ⟨enable_subSwitch s b, enable_subSwitchCheck querySerializer indirectType s t,
    ?_, ?_⟩
  · induction ts generalizing s with
    | nil => rfl
    | cons u rest ih =>
      rw [List.foldl_cons, ih, enable_subSwitchCheck]
  · induction bs generalizing s with
    | nil => rfl
    | cons c rest ih =>
      rw [List.foldl_cons, ih, enable_subSwitch]

/-- C18: the four declared states are closed under the constructor and the
transitions, over every byte. For every byte `s`, every boolean `b` and every
type `t`, each of `toplvSerializer b`, `subSwitch s b` and `subSwitchCheck s t`
is one of the four declared constants; and a byte `s` of value 4 or more is
enabled, while `needCheck`, `checkOk` and `checkFalse` are false on it. -/
theorem switch_states_closed {Ty : Type} (querySerializer : Ty → Bool)
    (indirectType : Ty → Ty) (s : serializerSwitch) (b : Bool) (t : Ty) :
    (toplvSerializer b = serializerDisable ∨ toplvSerializer b = serializerCheck ∨
     toplvSerializer b = serializerCheckFalse ∨ toplvSerializer b = serializerCheckOk) ∧
    (subSwitch s b = serializerDisable ∨ subSwitch s b = serializerCheck ∨
     subSwitch s b = serializerCheckFalse ∨ subSwitch s b = serializerCheckOk) ∧
    (subSwitchCheck querySerializer indirectType s t = serializerDisable ∨
     subSwitchCheck querySerializer indirectType s t = serializerCheck ∨
     subSwitchCheck querySerializer indirectType s t = serializerCheckFalse ∨
     subSwitchCheck querySerializer indirectType s t = serializerCheckOk) ∧
    (4 ≤ s.val →
      enable s = true ∧ needCheck s = false ∧ checkOk s = false ∧ checkFalse s = false) := by
  refine ⟨?_, ?_, ?_, ?_⟩
  · cases b
    · exact Or.inl rfl
    · exact Or.inr (Or.inl rfl)
  · cases h : enable s
    · exact Or.inl (subSwitch_of_not_enable s b h)
    · rw [subSwitch_of_enable s b h]
      cases b
      · exact Or.inr (Or.inr (Or.inl rfl))
      · exact Or.inr (Or.inr (Or.inr rfl))
  · cases h : enable s
    · exact Or.inl (subSwitchCheck_of_not_enable querySerializer indirectType s t h)
    · rw [subSwitchCheck_of_enable querySerializer indirectType s t h]
      cases querySerializer (indirectType t)
      · exact Or.inr (Or.inr (Or.inl rfl))
      · exact Or.inr (Or.inr (Or.inr rfl))
  · intro h4
    have hne : ∀ c : serializerSwitch, c.val < 4 → s ≠ c := by
      intro c hc heq
      rw [heq] at h4
      omega
    refine ⟨?_, ?_, ?_, ?_⟩
    · exact (enable_eq_true_iff s).mpr (hne serializerDisable (by decide))
    · simpa [needCheck] using hne serializerCheck (by decide)
    · simpa [checkOk] using hne serializerCheckOk (by decide)
    · simpa [checkFalse] using hne serializerCheckFalse (by decide)

/-- C18, at a concrete input: the byte 200, outside the declared constants. -/
theorem switch_states_closed_witness :
    4 ≤ (200 : serializerSwitch).val ∧
    enable (200 : serializerSwitch) = true ∧ needCheck (200 : serializerSwitch) = false ∧
    checkOk (200 : serializerSwitch) = false ∧ checkFalse (200 : serializerSwitch) = false :=
  ⟨by decide,
   (switch_states_closed (query_full_serializer GoType.methodSet) GoType.indirectType
      (200 : serializerSwitch) true GoType.Point).2.2.2 (by decide)⟩

end Binary
